import Mathlib

/-!
Verification of the garmin-connect client (src/garmin/GarminConnect.ts and
src/utils) against its design specification.  The token store, persistence
operations, constructor, upload and download paths are embedded shallowly;
the filesystem and the platform JSON codec are modelled explicitly so the
persistence round trip can be proved.
-/

namespace GarminSpec

/-- Credentials record (interface GCCredentials in GarminConnect.ts). -/
structure GCCredentials where
  username : String
  password : String
deriving DecidableEq, Repr

/-- Modelled from the spec: the OAuth1 token record of src/garmin/types
(not in the repository snapshot); the spec gives a token/tokenSecret pair
(section 3), further service metadata is opaque and omitted. -/
structure IOauth1Token where
  token : String
  tokenSecret : String
deriving DecidableEq, Repr

/-- Modelled from the spec: the OAuth2 token record of src/garmin/types
(not in the repository snapshot); the spec gives accessToken, refreshToken
and expiry metadata (section 3); the expiry field is kept as opaque text. -/
structure IOauth2Token where
  accessToken : String
  refreshToken : String
  expiresAt : String
deriving DecidableEq, Repr

/-- The pair returned by exportToken (interface IGarminTokens). -/
structure IGarminTokens where
  oauth1 : IOauth1Token
  oauth2 : IOauth2Token
deriving DecidableEq, Repr

/-- The mutable state of a GarminConnect instance together with its
HttpClient token store: credentials, the two optional tokens
(client.oauth1Token / client.oauth2Token) and the listeners map (modelled
as an association list of event name to registered callback identifiers). -/
structure GCState where
  credentials : GCCredentials
  oauth1Token : Option IOauth1Token
  oauth2Token : Option IOauth2Token
  listeners : List (String × Nat)
deriving DecidableEq, Repr

/-! ### JSON codec model

JSON.stringify / JSON.parse are node platform functions, not repository
code.  They are modelled concretely over the two token records: stringify
produces the canonical one-line JSON document (field order as declared,
strings escaped), parse accepts exactly such documents and fails on
anything else.  The property the repository relies on is that parse
inverts stringify, proved below. -/

/-- JSON string escaping of one character (backslash and quote escaped). -/
def escapeChar (c : Char) : List Char :=
  if c = '\\' then ['\\', '\\'] else if c = '"' then ['\\', '"'] else [c]

/-- JSON string escaping of a character list. -/
def escapeChars : List Char → List Char
  | [] => []
  | c :: cs => escapeChar c ++ escapeChars cs

/-- Helper for readQuoted: the flag records whether the previous character
was an unconsumed backslash, in which case the next character is literal. -/
def readQuotedAux : Bool → List Char → Option (List Char × List Char)
  | _, [] => none
  | true, c :: rest =>
    match readQuotedAux false rest with
    | none => none
    | some pr => some (c :: pr.1, pr.2)
  | false, c :: rest =>
    if c = '"' then some ([], rest)
    else if c = '\\' then readQuotedAux true rest
    else
      match readQuotedAux false rest with
      | none => none
      | some pr => some (c :: pr.1, pr.2)

/-- Read a JSON string body up to its closing quote, undoing escapes;
returns the decoded content and the remainder after the quote. -/
def readQuoted (s : List Char) : Option (List Char × List Char) :=
  readQuotedAux false s

/-- Drop an expected literal lead-in from the input, failing on mismatch. -/
def dropLeadChars : List Char → List Char → Option (List Char)
  | [], s => some s
  | _ :: _, [] => none
  | p :: ps, c :: cs => if c = p then dropLeadChars ps cs else none

def oauth1Lead : List Char := "\x7b\"token\":\"".toList
def oauth1Mid : List Char := ",\"tokenSecret\":\"".toList
def oauth2Lead : List Char := "\x7b\"accessToken\":\"".toList
def oauth2MidA : List Char := ",\"refreshToken\":\"".toList
def oauth2MidB : List Char := ",\"expiresAt\":\"".toList
def tailBrace : List Char := "\x7d".toList

/-- JSON.stringify of an OAuth1 token. -/
def stringifyOauth1 (t : IOauth1Token) : List Char :=
  oauth1Lead ++ (escapeChars t.token.toList ++
    ('"' :: (oauth1Mid ++ (escapeChars t.tokenSecret.toList ++ ('"' :: tailBrace)))))

/-- JSON.parse at type IOauth1Token: accepts the canonical serialized form. -/
def parseOauth1 (s : List Char) : Option IOauth1Token :=
  match dropLeadChars oauth1Lead s with
  | none => none
  | some s1 =>
    match readQuoted s1 with
    | none => none
    | some (tok, s2) =>
      match dropLeadChars oauth1Mid s2 with
      | none => none
      | some s3 =>
        match readQuoted s3 with
        | none => none
        | some (sec, s4) =>
          if s4 = tailBrace then some ⟨String.mk tok, String.mk sec⟩ else none

/-- JSON.stringify of an OAuth2 token. -/
def stringifyOauth2 (t : IOauth2Token) : List Char :=
  oauth2Lead ++ (escapeChars t.accessToken.toList ++
    ('"' :: (oauth2MidA ++ (escapeChars t.refreshToken.toList ++
      ('"' :: (oauth2MidB ++ (escapeChars t.expiresAt.toList ++ ('"' :: tailBrace))))))))

/-- JSON.parse at type IOauth2Token: accepts the canonical serialized form. -/
def parseOauth2 (s : List Char) : Option IOauth2Token :=
  match dropLeadChars oauth2Lead s with
  | none => none
  | some s1 =>
    match readQuoted s1 with
    | none => none
    | some (acc, s2) =>
      match dropLeadChars oauth2MidA s2 with
      | none => none
      | some s3 =>
        match readQuoted s3 with
        | none => none
        | some (ref, s4) =>
          match dropLeadChars oauth2MidB s4 with
          | none => none
          | some s5 =>
            match readQuoted s5 with
            | none => none
            | some (exp, s6) =>
              if s6 = tailBrace then
                some ⟨String.mk acc, String.mk ref, String.mk exp⟩
              else none

theorem dropLeadChars_append (p s : List Char) :
    dropLeadChars p (p ++ s) = some s := by
  induction p with
  | nil => rfl
  | cons c cs ih => simp [dropLeadChars, ih]

theorem readQuoted_escape (s r : List Char) :
    readQuoted (escapeChars s ++ '"' :: r) = some (s, r) := by
  unfold readQuoted
  induction s with
  | nil => rfl
  | cons c cs ih =>
    by_cases hb : c = '\\'
    · subst hb
      simp [escapeChars, escapeChar, readQuotedAux, ih]
    · by_cases hq : c = '"'
      · subst hq
        simp [escapeChars, escapeChar, readQuotedAux, ih]
      · simp [escapeChars, escapeChar, readQuotedAux, hb, hq, ih]

theorem string_mk_toList (s : String) : String.mk s.toList = s := rfl

theorem parseOauth1_stringify (t : IOauth1Token) :
    parseOauth1 (stringifyOauth1 t) = some t := by
  simp [parseOauth1, stringifyOauth1, dropLeadChars_append, readQuoted_escape,
    string_mk_toList]

theorem parseOauth2_stringify (t : IOauth2Token) :
    parseOauth2 (stringifyOauth2 t) = some t := by
  simp [parseOauth2, stringifyOauth2, dropLeadChars_append, readQuoted_escape,
    string_mk_toList]

/-! ### Filesystem model

The node:fs primitives used by src/utils (existsSync, lstatSync, mkdirSync,
writeFileSync, readFileSync).  Directories are a list of existing directory
paths and files an association list from path to content; writeFileSync
overwrites, mkdirSync fails if the path already exists.  Path-permission
failures and the parent-must-exist condition of mkdirSync are platform
details no claim depends on and are not modelled. -/
structure FS where
  dirs : List String
  files : List (String × List Char)
deriving DecidableEq, Repr

/-- First-match lookup in the file association list (most recent write wins). -/
def lookupFile : List (String × List Char) → String → Option (List Char)
  | [], _ => none
  | (p, v) :: rest, q => if p = q then some v else lookupFile rest q

/-- node's fs.existsSync. -/
def existsSync (fs : FS) (p : String) : Bool :=
  decide (p ∈ fs.dirs) || (lookupFile fs.files p).isSome

/-- node's lstatSync(p).isDirectory(). -/
def isDirectoryStat (fs : FS) (p : String) : Bool :=
  decide (p ∈ fs.dirs)

/-- src/utils checkIsDirectory: existsSync(filePath) && lstatSync(filePath).isDirectory(). -/
def checkIsDirectory (fs : FS) (p : String) : Bool :=
  existsSync fs p && isDirectoryStat fs p

/-- src/utils createDirectory: mkdirSync(directoryPath); fails if the path
already exists. -/
def createDirectory (fs : FS) (p : String) : Except String FS :=
  if existsSync fs p then Except.error ("EEXIST: file already exists, mkdir " ++ p)
  else Except.ok { fs with dirs := p :: fs.dirs }

/-- src/utils writeToFile: writeFileSync(filePath, data), overwriting. -/
def writeToFile (fs : FS) (p : String) (v : List Char) : FS :=
  { fs with files := (p, v) :: fs.files }

/-- node's fs.readFileSync, none when the file is absent. -/
def readFileSync (fs : FS) (p : String) : Option (List Char) :=
  lookupFile fs.files p

/-- node's path.join for the two-segment uses in GarminConnect.ts. -/
def pathJoin (dir name : String) : String :=
  dir ++ "/" ++ name

/-! ### GarminConnect construction and token-store operations -/

/-- The state a freshly constructed GarminConnect holds: the resolved
credentials, no tokens, empty listeners map. -/
def initialState (cred : GCCredentials) : GCState :=
  { credentials := cred, oauth1Token := none, oauth2Token := none, listeners := [] }

/-- The constructor body: throws 'Missing credentials' when the resolved
credentials value is absent, otherwise initializes the instance. -/
def mkGarminConnect (credentials : Option GCCredentials) : Except String GCState :=
  match credentials with
  | none => Except.error "Missing credentials"
  | some c => Except.ok (initialState c)

/-- Construction with the TypeScript default-parameter resolution:
new GarminConnect(credentials = config) uses the module-level config
(loaded from garmin.config.json) whenever no explicit argument is given. -/
def constructGarmin (explicitCreds configCreds : Option GCCredentials) :
    Except String GCState :=
  mkGarminConnect (explicitCreds.orElse (fun _ => configCreds))

/-- GarminConnect.exportTokenToFile: ensure the directory exists, then write
each token that is present to its JSON file; an absent token is skipped. -/
def exportTokenToFile (c : GCState) (fs : FS) (dirPath : String) : Except String FS :=
  match (if checkIsDirectory fs dirPath then Except.ok fs else createDirectory fs dirPath) with
  | Except.error e => Except.error e
  | Except.ok fs1 =>
    let fs2 := match c.oauth1Token with
      | some t => writeToFile fs1 (pathJoin dirPath "oauth1_token.json") (stringifyOauth1 t)
      | none => fs1
    let fs3 := match c.oauth2Token with
      | some t => writeToFile fs2 (pathJoin dirPath "oauth2_token.json") (stringifyOauth2 t)
      | none => fs2
    Except.ok fs3

/-- GarminConnect.loadTokenByFile: require the directory, then read and parse
oauth1_token.json, assign it, then read and parse oauth2_token.json, assign
it.  The returned state is the instance state at the moment of return or
throw (the read/parse error texts approximate the platform messages). -/
def loadTokenByFile (c : GCState) (fs : FS) (dirPath : String) :
    GCState × Except String Unit :=
  if checkIsDirectory fs dirPath = false then
    (c, Except.error ("loadTokenByFile: Directory not found: " ++ dirPath))
  else
    match readFileSync fs (pathJoin dirPath "oauth1_token.json") with
    | none =>
      (c, Except.error ("ENOENT: no such file or directory, open " ++
        pathJoin dirPath "oauth1_token.json"))
    | some oauth1Data =>
      match parseOauth1 oauth1Data with
      | none => (c, Except.error "SyntaxError: Unexpected token in JSON")
      | some t1 =>
        let c1 := { c with oauth1Token := some t1 }
        match readFileSync fs (pathJoin dirPath "oauth2_token.json") with
        | none =>
          (c1, Except.error ("ENOENT: no such file or directory, open " ++
            pathJoin dirPath "oauth2_token.json"))
        | some oauth2Data =>
          match parseOauth2 oauth2Data with
          | none => (c1, Except.error "SyntaxError: Unexpected token in JSON")
          | some t2 => ({ c1 with oauth2Token := some t2 }, Except.ok ())

/-- GarminConnect.exportToken: throws when either token is absent, else
returns the stored pair. -/
def exportToken (c : GCState) : Except String IGarminTokens :=
  match c.oauth1Token, c.oauth2Token with
  | some t1, some t2 => Except.ok { oauth1 := t1, oauth2 := t2 }
  | _, _ => Except.error "exportToken: Token not found"

/-- GarminConnect.loadToken: set both tokens from caller-managed storage. -/
def loadToken (c : GCState) (oauth1 : IOauth1Token) (oauth2 : IOauth2Token) : GCState :=
  { c with oauth1Token := some oauth1, oauth2Token := some oauth2 }

/-- GarminConnect.login: overwrite the credentials when both arguments are
given, then run the session establisher.  Modelled from the spec: the spec
states that HttpClient.login (the Session Establisher, whose source is not
under src/) populates both tokens of the store on success; the resulting
tokens are therefore taken as parameters. -/
def login (c : GCState) (username password : Option String)
    (newOauth1 : IOauth1Token) (newOauth2 : IOauth2Token) : GCState :=
  let c1 := match username, password with
    | some u, some p => { c with credentials := { username := u, password := p } }
    | _, _ => c
  { c1 with oauth1Token := some newOauth1, oauth2Token := some newOauth2 }

/-! ### API facade error propagation

The facade methods delegate to the dispatcher (HttpClient, whose source is
not under src/); its outcome is passed in as an explicit Except value, an
error being whatever failure the dispatcher surfaced.  What is embedded is
the code each method wraps around that outcome. -/

/-- Minimal activity record (types/activity, not in the snapshot). -/
structure IActivity where
  activityId : String
deriving DecidableEq, Repr

/-- Minimal sleep record following the fields getSleepDuration reads
(types/sleep, not in the snapshot). -/
structure DailySleepDTO where
  sleepStartTimestampGMT : Option Int
  sleepEndTimestampGMT : Option Int
deriving DecidableEq, Repr

structure SleepData where
  dailySleepDTO : Option DailySleepDTO
deriving DecidableEq, Repr

/-- GarminConnect.getActivities: returns this.client.get(...) directly,
with no try/catch; the dispatcher outcome (success or failure) reaches the
caller unchanged.  The response can be null at runtime, hence the Option. -/
def getActivities (resp : Except String (List IActivity)) :
    Except String (List IActivity) :=
  resp

/-- GarminConnect.getSleepData: awaits the dispatcher inside a try block,
throws on a null/empty response, and rewraps every failure as
'Error in getSleepData: ...'. -/
def getSleepData (resp : Except String (Option SleepData)) :
    Except String SleepData :=
  match (match resp with
         | Except.error e => Except.error e
         | Except.ok none => Except.error "Invalid or empty sleep data response."
         | Except.ok (some d) => Except.ok d : Except String SleepData) with
  | Except.ok d => Except.ok d
  | Except.error e => Except.error ("Error in getSleepData: " ++ e)

/-- Whether needle occurs as a contiguous run inside hay. -/
def leadsWith : List Char → List Char → Bool
  | [], _ => true
  | _ :: _, [] => false
  | p :: ps, c :: cs => p = c && leadsWith ps cs

def containsChars (hay needle : List Char) : Bool :=
  match hay with
  | [] => leadsWith needle []
  | _ :: rest => leadsWith needle hay || containsChars rest needle

/-! ### Transfer handler: upload -/

/-- Modelled from the spec: the values of the UploadFileType enum
(src/garmin/types, not in the snapshot) — the fixed allow-set of upload
format tags; the default format argument 'fit' in GarminConnect.ts is a
member. -/
def UploadFileType : List String := ["fit", "gpx", "tcx"]

/-- node's path.extname: the suffix of the final path segment from its last
dot, empty for no dot or a leading-dot-only name. -/
def extname (s : String) : String :=
  let rev := (s.toList.reverse.takeWhile (fun c => ¬ c = '/')).reverse
  match rev.reverse.dropWhile (fun c => ¬ c = '.') with
  | [] => ""
  | _ :: rest =>
    if rest = [] then ""
    else String.mk ('.' :: (rev.reverse.takeWhile (fun c => ¬ c = '.')).reverse)

/-- Modelled from the spec: UrlClass.UPLOAD (UrlClass.ts not in the
snapshot) — the upload endpoint keyed by the declared format tag. -/
def uploadUrl (fmt : String) : String :=
  "upload-service/upload/." ++ fmt

/-- The POST request uploadActivity would hand to the dispatcher. -/
structure UploadRequest where
  url : String
deriving DecidableEq, Repr

/-- JS String.prototype.toLowerCase over the ASCII range. -/
def toLowerCase (s : String) : String :=
  String.mk (s.data.map Char.toLower)

/-- GarminConnect.uploadActivity: detect the format (the argument, or the
file extension when the argument is empty), lowercase it, throw before any
dispatcher call when it is outside UploadFileType, else post the multipart
form.  The returned request is what reaches the transport; an error return
means the transport was never invoked. -/
def uploadActivity (file form : String) : Except String UploadRequest :=
  let detectedFormat := toLowerCase (if form = "" then extname file else form)
  if detectedFormat ∈ UploadFileType then Except.ok { url := uploadUrl form }
  else Except.error ("uploadActivity - Invalid format: " ++ form)

/-! ### Transfer handler: download -/

/-- A GET request as handed to the dispatcher: target URL plus the
responseType option ('arraybuffer' requests an opaque binary body, 'text'
the default text-like decoding). -/
structure HttpRequest where
  url : String
  responseType : String
deriving DecidableEq, Repr

/-- Modelled from the spec: the four download endpoints of UrlClass
(UrlClass.ts not in the snapshot), one per export format. -/
def DOWNLOAD_TCX : String := "download-service/export/tcx/activity/"
def DOWNLOAD_GPX : String := "download-service/export/gpx/activity/"
def DOWNLOAD_KML : String := "download-service/export/kml/activity/"
def DOWNLOAD_ZIP : String := "download-service/files/activity/"

/-- GarminConnect.downloadOriginalActivityData: require an activityId,
create the directory if absent, fetch the body (arraybuffer for zip, text
otherwise), throw on an unknown type before any fetch, then write
dir/activityId.type.  Returns the filesystem at return or throw, the list
of dispatcher requests issued, and the outcome; fetch maps a request to
the body the dispatcher would return. -/
def downloadOriginalActivityData (fs : FS) (activityId dir ty : String)
    (fetch : HttpRequest → List Char) :
    FS × List HttpRequest × Except String Unit :=
  if activityId = "" then (fs, [], Except.error "Missing activityId")
  else
    match (if checkIsDirectory fs dir then Except.ok fs else createDirectory fs dir) with
    | Except.error e => (fs, [], Except.error e)
    | Except.ok fs1 =>
      match (if ty = "tcx" then Except.ok ({ url := DOWNLOAD_TCX ++ activityId, responseType := "text" } : HttpRequest)
             else if ty = "gpx" then Except.ok ({ url := DOWNLOAD_GPX ++ activityId, responseType := "text" } : HttpRequest)
             else if ty = "kml" then Except.ok ({ url := DOWNLOAD_KML ++ activityId, responseType := "text" } : HttpRequest)
             else if ty = "zip" then Except.ok ({ url := DOWNLOAD_ZIP ++ activityId, responseType := "arraybuffer" } : HttpRequest)
             else Except.error ("downloadOriginalActivityData - Invalid type: " ++ ty)) with
      | Except.error e => (fs1, [], Except.error e)
      | Except.ok req =>
        (writeToFile fs1 (pathJoin dir (activityId ++ "." ++ ty)) (fetch req),
          [req], Except.ok ())

/-! ### Supporting lemmas -/

theorem string_data_append (s t : String) : (s ++ t).data = s.data ++ t.data := by
  cases s
  cases t
  rfl

theorem string_append_cancel_left {s t u : String} (h : s ++ t = s ++ u) : t = u := by
  have hd : s.data ++ t.data = s.data ++ u.data := by
    have hc := congrArg String.data h
    simpa [string_data_append] using hc
  have hdu := List.append_cancel_left hd
  cases t
  cases u
  exact congrArg String.mk hdu

theorem pathJoin_inj_right {dir a b : String} (h : pathJoin dir a = pathJoin dir b) :
    a = b := by
  unfold pathJoin at h
  exact string_append_cancel_left h

theorem pathJoin_token_ne (dir : String) :
    pathJoin dir "oauth1_token.json" ≠ pathJoin dir "oauth2_token.json" := by
  intro h
  exact absurd (pathJoin_inj_right h) (by decide)

theorem checkIsDirectory_eq_mem (fs : FS) (p : String) :
    checkIsDirectory fs p = decide (p ∈ fs.dirs) := by
  unfold checkIsDirectory existsSync isDirectoryStat
  cases h : decide (p ∈ fs.dirs) <;> simp [h]

theorem lookupFile_head (rest : List (String × List Char)) (p : String) (v : List Char) :
    lookupFile ((p, v) :: rest) p = some v := by
  simp [lookupFile]

theorem lookupFile_head_ne {p q : String} (rest : List (String × List Char))
    (v : List Char) (h : p ≠ q) :
    lookupFile ((p, v) :: rest) q = lookupFile rest q := by
  simp [lookupFile, h]

/-- Characterization of a successful exportTokenToFile when both tokens are
present: the directory exists afterwards and both token files hold the
serialized tokens. -/
theorem exportTokenToFile_ok_both (c : GCState) (fs fsOut : FS) (dir : String)
    (t1 : IOauth1Token) (t2 : IOauth2Token)
    (h1 : c.oauth1Token = some t1) (h2 : c.oauth2Token = some t2)
    (h : exportTokenToFile c fs dir = Except.ok fsOut) :
    dir ∈ fsOut.dirs ∧
    lookupFile fsOut.files (pathJoin dir "oauth1_token.json") = some (stringifyOauth1 t1) ∧
    lookupFile fsOut.files (pathJoin dir "oauth2_token.json") = some (stringifyOauth2 t2) := by
  unfold exportTokenToFile at h
  rw [h1, h2] at h
  have hne := pathJoin_token_ne dir
  by_cases hd : checkIsDirectory fs dir = true
  · rw [if_pos hd] at h
    simp only [writeToFile] at h
    cases h
    have hmem : dir ∈ fs.dirs := by
      have hc := checkIsDirectory_eq_mem fs dir
      rw [hd] at hc
      exact of_decide_eq_true hc.symm
    refine ⟨by simpa using hmem, ?_, ?_⟩
    · simp [lookupFile, Ne.symm hne]
    · simp [lookupFile]
  · rw [if_neg hd] at h
    unfold createDirectory at h
    by_cases he : existsSync fs dir = true
    · rw [if_pos he] at h
      exact absurd h (by simp)
    · rw [if_neg he] at h
      simp only [writeToFile] at h
      cases h
      refine ⟨by simp, ?_, ?_⟩
      · simp [lookupFile, Ne.symm hne]
      · simp [lookupFile]

/-! ### Claim theorems -/

/-- Claim C1: saving the token store to a directory and loading it from the
same directory on a fresh instance reproduces a store whose exportToken
output equals the original's, including its serialized (byte-level) form. -/
theorem c1_save_load_roundtrip (c : GCState) (fs fsOut : FS) (dir : String)
    (cred : GCCredentials) (t1 : IOauth1Token) (t2 : IOauth2Token)
    (h1 : c.oauth1Token = some t1) (h2 : c.oauth2Token = some t2)
    (hsave : exportTokenToFile c fs dir = Except.ok fsOut) :
    ∃ cNew, loadTokenByFile (initialState cred) fsOut dir = (cNew, Except.ok ()) ∧
      exportToken cNew = Except.ok { oauth1 := t1, oauth2 := t2 } ∧
      exportToken cNew = exportToken c ∧
      (exportToken cNew).map (fun tk => (stringifyOauth1 tk.oauth1, stringifyOauth2 tk.oauth2)) =
        (exportToken c).map (fun tk => (stringifyOauth1 tk.oauth1, stringifyOauth2 tk.oauth2)) := by
  obtain ⟨hdir, hf1, hf2⟩ := exportTokenToFile_ok_both c fs fsOut dir t1 t2 h1 h2 hsave
  refine ⟨{ initialState cred with oauth1Token := some t1, oauth2Token := some t2 }, ?_, ?_, ?_, ?_⟩
  · unfold loadTokenByFile
    rw [checkIsDirectory_eq_mem]
    simp only [readFileSync, hf1, hf2, decide_eq_true hdir]
    simp [parseOauth1_stringify, parseOauth2_stringify]
  · rfl
  · unfold exportToken
    rw [h1, h2]
  · unfold exportToken
    rw [h1, h2]

/-- Claim C3: exportToken fails with the token-not-found error exactly when
either token is absent, and returns the stored pair when both are present. -/
theorem c3_exportToken_iff (c : GCState) :
    (exportToken c = Except.error "exportToken: Token not found" ↔
      (c.oauth1Token = none ∨ c.oauth2Token = none)) ∧
    (∀ t1 t2, c.oauth1Token = some t1 → c.oauth2Token = some t2 →
      exportToken c = Except.ok { oauth1 := t1, oauth2 := t2 }) := by
  cases h1 : c.oauth1Token <;> cases h2 : c.oauth2Token <;>
    simp [exportToken, h1, h2]

/-- Witness for C3 at a concrete store holding both tokens. -/
theorem c3_exportToken_iff_witness :
    exportToken
        { credentials := { username := "u", password := "p" },
          oauth1Token := some { token := "a", tokenSecret := "b" },
          oauth2Token := some { accessToken := "x", refreshToken := "y", expiresAt := "z" },
          listeners := [] } =
      Except.ok
        { oauth1 := { token := "a", tokenSecret := "b" },
          oauth2 := { accessToken := "x", refreshToken := "y", expiresAt := "z" } } :=
  (c3_exportToken_iff _).2 _ _ rfl rfl

/-- When the directory is already a directory, or nothing exists at its
path, the ensure-directory step of the save and download paths succeeds,
yields a filesystem with the directory present and the files untouched. -/
theorem ensureDir_ok (fs : FS) (dir : String)
    (hdir : checkIsDirectory fs dir = true ∨ existsSync fs dir = false) :
    ∃ fs1, (if checkIsDirectory fs dir then Except.ok fs else createDirectory fs dir) =
        Except.ok fs1 ∧ dir ∈ fs1.dirs ∧ fs1.files = fs.files := by
  rcases hdir with hcd | hex
  · refine ⟨fs, by rw [if_pos hcd], ?_, rfl⟩
    have hc := checkIsDirectory_eq_mem fs dir
    rw [hcd] at hc
    exact of_decide_eq_true hc.symm
  · have hcd : checkIsDirectory fs dir = false := by
      unfold checkIsDirectory
      rw [hex]
      rfl
    refine ⟨{ fs with dirs := dir :: fs.dirs }, ?_, by simp, rfl⟩
    rw [if_neg (by simp [hcd])]
    unfold createDirectory
    rw [if_neg (by simp [hex])]

/-- Every exit of loadTokenByFile leaves the listeners component of the
instance untouched. -/
theorem loadTokenByFile_listeners (c : GCState) (fs : FS) (dir : String) :
    (loadTokenByFile c fs dir).1.listeners = c.listeners := by
  by_cases hcd : checkIsDirectory fs dir = false
  · simp [loadTokenByFile, hcd]
  · cases hr1 : readFileSync fs (pathJoin dir "oauth1_token.json") with
    | none => simp [loadTokenByFile, hcd, hr1]
    | some s1 =>
      cases hp1 : parseOauth1 s1 with
      | none => simp [loadTokenByFile, hcd, hr1, hp1]
      | some t1 =>
        cases hr2 : readFileSync fs (pathJoin dir "oauth2_token.json") with
        | none => simp [loadTokenByFile, hcd, hr1, hp1, hr2]
        | some s2 =>
          cases hp2 : parseOauth2 s2 with
          | none => simp [loadTokenByFile, hcd, hr1, hp1, hr2, hp2]
          | some t2 => simp [loadTokenByFile, hcd, hr1, hp1, hr2, hp2]

/-- Claim C2 counterexample: a token store holding tokens A1/A2, loaded from
a directory that has a valid oauth1 file but no oauth2 file, fails — yet
the store has been partially mutated: the OAuth1 token was replaced. -/
theorem c2_counterexample :
    loadTokenByFile
        { credentials := { username := "u", password := "p" },
          oauth1Token := some { token := "A1", tokenSecret := "A1s" },
          oauth2Token := some { accessToken := "A2", refreshToken := "A2r", expiresAt := "A2e" },
          listeners := [] }
        { dirs := ["d"],
          files := [(pathJoin "d" "oauth1_token.json",
            stringifyOauth1 { token := "B1", tokenSecret := "B1s" })] }
        "d" =
      ({ credentials := { username := "u", password := "p" },
         oauth1Token := some { token := "B1", tokenSecret := "B1s" },
         oauth2Token := some { accessToken := "A2", refreshToken := "A2r", expiresAt := "A2e" },
         listeners := [] },
       Except.error "ENOENT: no such file or directory, open d/oauth2_token.json") ∧
    ({ credentials := { username := "u", password := "p" },
       oauth1Token := some { token := "B1", tokenSecret := "B1s" },
       oauth2Token := some { accessToken := "A2", refreshToken := "A2r", expiresAt := "A2e" },
       listeners := [] } : GCState) ≠
      { credentials := { username := "u", password := "p" },
        oauth1Token := some { token := "A1", tokenSecret := "A1s" },
        oauth2Token := some { accessToken := "A2", refreshToken := "A2r", expiresAt := "A2e" },
        listeners := [] } := by
  exact ⟨rfl, by decide⟩

/-- Claim C2 (amended): a missing directory fails with the directory-not-found
error and leaves the store unchanged, and any failure before the OAuth1
assignment leaves the store unchanged; but when the OAuth1 file loads and the
OAuth2 file is missing or unparsable, the OAuth1 token is replaced while the
OAuth2 token keeps its prior value — so a failed load is either a full
no-op or exactly this partial mutation, and success replaces both tokens
with the parsed file contents. -/
theorem c2_load_mutation_amended (c : GCState) (fs : FS) (dir : String) :
    (checkIsDirectory fs dir = false →
      loadTokenByFile c fs dir =
        (c, Except.error ("loadTokenByFile: Directory not found: " ++ dir))) ∧
    (∀ e, (loadTokenByFile c fs dir).2 = Except.error e →
      (loadTokenByFile c fs dir).1 = c ∨
      ∃ t1, (loadTokenByFile c fs dir).1 = { c with oauth1Token := some t1 }) ∧
    ((loadTokenByFile c fs dir).2 = Except.ok () →
      ∃ s1 t1 s2 t2,
        readFileSync fs (pathJoin dir "oauth1_token.json") = some s1 ∧
        parseOauth1 s1 = some t1 ∧
        readFileSync fs (pathJoin dir "oauth2_token.json") = some s2 ∧
        parseOauth2 s2 = some t2 ∧
        (loadTokenByFile c fs dir).1 =
          { c with oauth1Token := some t1, oauth2Token := some t2 }) := by
  refine ⟨fun hcd => by simp [loadTokenByFile, hcd], ?_, ?_⟩
  · intro e he
    by_cases hcd : checkIsDirectory fs dir = false
    · left
      simp [loadTokenByFile, hcd]
    · cases hr1 : readFileSync fs (pathJoin dir "oauth1_token.json") with
      | none => left; simp [loadTokenByFile, hcd, hr1]
      | some s1 =>
        cases hp1 : parseOauth1 s1 with
        | none => left; simp [loadTokenByFile, hcd, hr1, hp1]
        | some t1 =>
          cases hr2 : readFileSync fs (pathJoin dir "oauth2_token.json") with
          | none =>
            right
            exact ⟨t1, by simp [loadTokenByFile, hcd, hr1, hp1, hr2]⟩
          | some s2 =>
            cases hp2 : parseOauth2 s2 with
            | none =>
              right
              exact ⟨t1, by simp [loadTokenByFile, hcd, hr1, hp1, hr2, hp2]⟩
            | some t2 =>
              exfalso
              simp [loadTokenByFile, hcd, hr1, hp1, hr2, hp2] at he
  · intro hok
    by_cases hcd : checkIsDirectory fs dir = false
    · simp [loadTokenByFile, hcd] at hok
    · cases hr1 : readFileSync fs (pathJoin dir "oauth1_token.json") with
      | none => simp [loadTokenByFile, hcd, hr1] at hok
      | some s1 =>
        cases hp1 : parseOauth1 s1 with
        | none => simp [loadTokenByFile, hcd, hr1, hp1] at hok
        | some t1 =>
          cases hr2 : readFileSync fs (pathJoin dir "oauth2_token.json") with
          | none => simp [loadTokenByFile, hcd, hr1, hp1, hr2] at hok
          | some s2 =>
            cases hp2 : parseOauth2 s2 with
            | none => simp [loadTokenByFile, hcd, hr1, hp1, hr2, hp2] at hok
            | some t2 =>
              exact ⟨s1, t1, s2, t2, rfl, hp1, rfl, hp2,
                by simp [loadTokenByFile, hcd, hr1, hp1, hr2, hp2]⟩

/-- Witness for the amended C2 at the counterexample input: the failed load
left the OAuth1 token replaced. -/
theorem c2_load_mutation_amended_witness :
    (loadTokenByFile
        { credentials := { username := "u", password := "p" },
          oauth1Token := some { token := "A1", tokenSecret := "A1s" },
          oauth2Token := some { accessToken := "A2", refreshToken := "A2r", expiresAt := "A2e" },
          listeners := [] }
        { dirs := ["d"],
          files := [(pathJoin "d" "oauth1_token.json",
            stringifyOauth1 { token := "B1", tokenSecret := "B1s" })] }
        "d").1 =
        { credentials := { username := "u", password := "p" },
          oauth1Token := some { token := "A1", tokenSecret := "A1s" },
          oauth2Token := some { accessToken := "A2", refreshToken := "A2r", expiresAt := "A2e" },
          listeners := [] } ∨
    ∃ t1, (loadTokenByFile
        { credentials := { username := "u", password := "p" },
          oauth1Token := some { token := "A1", tokenSecret := "A1s" },
          oauth2Token := some { accessToken := "A2", refreshToken := "A2r", expiresAt := "A2e" },
          listeners := [] }
        { dirs := ["d"],
          files := [(pathJoin "d" "oauth1_token.json",
            stringifyOauth1 { token := "B1", tokenSecret := "B1s" })] }
        "d").1 =
        { credentials := { username := "u", password := "p" },
          oauth1Token := some t1,
          oauth2Token := some { accessToken := "A2", refreshToken := "A2r", expiresAt := "A2e" },
          listeners := [] } :=
  (c2_load_mutation_amended _ _ "d").2.1
    "ENOENT: no such file or directory, open d/oauth2_token.json" rfl

/-- Claim C7: construction resolves explicit credentials first, then the
configuration fallback, and fails with the missing-credentials error when
both are absent. -/
theorem c7_credential_resolution :
    constructGarmin none none = Except.error "Missing credentials" ∧
    (∀ cfg : GCCredentials, constructGarmin none (some cfg) = Except.ok (initialState cfg)) ∧
    (∀ (cred : GCCredentials) (cfg : Option GCCredentials),
      constructGarmin (some cred) cfg = Except.ok (initialState cred)) := by
  refine ⟨rfl, fun cfg => rfl, fun cred cfg => ?_⟩
  cases cfg <;> rfl

/-- Witness for C1 at a concrete store, empty filesystem and directory d. -/
theorem c1_save_load_roundtrip_witness :
    ∃ cNew, loadTokenByFile (initialState { username := "u2", password := "p2" })
        { dirs := ["d"],
          files := [(pathJoin "d" "oauth2_token.json",
              stringifyOauth2 { accessToken := "x", refreshToken := "y", expiresAt := "z" }),
            (pathJoin "d" "oauth1_token.json",
              stringifyOauth1 { token := "a", tokenSecret := "b" })] } "d" =
        (cNew, Except.ok ()) ∧
      exportToken cNew = Except.ok
        { oauth1 := { token := "a", tokenSecret := "b" },
          oauth2 := { accessToken := "x", refreshToken := "y", expiresAt := "z" } } ∧
      exportToken cNew = exportToken
        { credentials := { username := "u", password := "p" },
          oauth1Token := some { token := "a", tokenSecret := "b" },
          oauth2Token := some { accessToken := "x", refreshToken := "y", expiresAt := "z" },
          listeners := [] } ∧
      (exportToken cNew).map (fun tk => (stringifyOauth1 tk.oauth1, stringifyOauth2 tk.oauth2)) =
        (exportToken
          { credentials := { username := "u", password := "p" },
            oauth1Token := some { token := "a", tokenSecret := "b" },
            oauth2Token := some { accessToken := "x", refreshToken := "y", expiresAt := "z" },
            listeners := [] }).map
          (fun tk => (stringifyOauth1 tk.oauth1, stringifyOauth2 tk.oauth2)) :=
  c1_save_load_roundtrip
    { credentials := { username := "u", password := "p" },
      oauth1Token := some { token := "a", tokenSecret := "b" },
      oauth2Token := some { accessToken := "x", refreshToken := "y", expiresAt := "z" },
      listeners := [] }
    { dirs := [], files := [] } _ "d" { username := "u2", password := "p2" }
    { token := "a", tokenSecret := "b" }
    { accessToken := "x", refreshToken := "y", expiresAt := "z" } rfl rfl rfl

/-- Claim C4 counterexample: a dispatcher failure inside getActivities
surfaces to the caller verbatim, with no wrapped message naming the
operation — unlike getSleepData, which does wrap. -/
theorem c4_counterexample :
    getActivities (Except.error "socket hang up") = Except.error "socket hang up" ∧
    containsChars "socket hang up".toList "getActivities".toList = false ∧
    containsChars "Error in getSleepData: socket hang up".toList "getSleepData".toList = true := by
  exact ⟨rfl, by decide, by decide⟩

/-- Claim C4 (amended): the operations of the sleep/weight/hydration/golf/
heart-rate family rewrap every failure as a contextual message naming the
operation, and surface a null response as such a wrapped error; the plain
facade operations such as getActivities forward the dispatcher outcome to
the caller unchanged — in both cases no failure is swallowed. -/
theorem c4_error_propagation_amended (e : String) (resp : Except String (List IActivity)) :
    getSleepData (Except.error e) = Except.error ("Error in getSleepData: " ++ e) ∧
    getSleepData (Except.ok none) =
      Except.error ("Error in getSleepData: " ++ "Invalid or empty sleep data response.") ∧
    (∀ d, getSleepData (Except.ok (some d)) = Except.ok d) ∧
    getActivities resp = resp :=
  ⟨rfl, rfl, fun _ => rfl, rfl⟩

/-- Claim C5 counterexample: "FIT" is outside the allow-set, yet
uploadActivity accepts it (the format is lowercased before the check) and
hands a request to the transport. -/
theorem c5_counterexample :
    "FIT" ∉ UploadFileType ∧
    uploadActivity "activity.fit" "FIT" = Except.ok { url := uploadUrl "FIT" } :=
  ⟨by decide, rfl⟩

/-- Claim C5 (amended): uploadActivity fails with the invalid-format error
— before any transport invocation, an error return being produced without
a request — exactly when the detected format (the lowercased format
argument, or the lowercased file extension when the argument is empty) is
outside the allow-set; a format differing from an allowed tag only by case
is accepted. -/
theorem c5_upload_fail_fast_amended (file form : String)
    (h : toLowerCase (if form = "" then extname file else form) ∉ UploadFileType) :
    uploadActivity file form = Except.error ("uploadActivity - Invalid format: " ++ form) := by
  unfold uploadActivity
  rw [if_neg h]

/-- Witness for the amended C5 at the spec's example format xyz. -/
theorem c5_upload_fail_fast_amended_witness :
    uploadActivity "activity.xyz" "xyz" =
      Except.error ("uploadActivity - Invalid format: " ++ "xyz") :=
  c5_upload_fail_fast_amended "activity.xyz" "xyz" (by decide)

/-- Claim C6: for a non-empty activityId and a type in the allowed set, the
download fetches one request, writes the fetched body to dir/activityId.type,
the directory exists afterwards, and the body is requested as an opaque
binary buffer exactly when the type is zip. -/
theorem c6_download_writes_file (fs : FS) (aid dir ty : String)
    (fetch : HttpRequest → List Char)
    (ha : ¬ aid = "")
    (hty : ty = "tcx" ∨ ty = "gpx" ∨ ty = "kml" ∨ ty = "zip")
    (hdir : checkIsDirectory fs dir = true ∨ existsSync fs dir = false) :
    ∃ fsOut req,
      downloadOriginalActivityData fs aid dir ty fetch = (fsOut, [req], Except.ok ()) ∧
      lookupFile fsOut.files (pathJoin dir (aid ++ "." ++ ty)) = some (fetch req) ∧
      dir ∈ fsOut.dirs ∧
      ((req.responseType = "arraybuffer") ↔ ty = "zip") := by
  obtain ⟨fs1, hfs1, hmem, hfiles⟩ := ensureDir_ok fs dir hdir
  unfold downloadOriginalActivityData
  rw [if_neg ha, hfs1]
  rcases hty with h | h | h | h <;> subst h <;>
    exact ⟨_, _, rfl, by simp [writeToFile, lookupFile],
      by simpa [writeToFile] using hmem,
      by constructor <;> intro hx <;>
        first
          | rfl
          | exact absurd hx (by decide)
          | exact absurd (show ("text" : String) = "arraybuffer" from hx) (by decide)⟩

/-- Witness for C6 at a concrete zip download into a fresh directory. -/
theorem c6_download_writes_file_witness :
    ∃ fsOut req,
      downloadOriginalActivityData { dirs := [], files := [] } "123" "dl" "zip"
          (fun _ => "payload".toList) = (fsOut, [req], Except.ok ()) ∧
      lookupFile fsOut.files (pathJoin "dl" ("123" ++ "." ++ "zip")) =
        some ((fun _ : HttpRequest => "payload".toList) req) ∧
      "dl" ∈ fsOut.dirs ∧
      ((req.responseType = "arraybuffer") ↔ ("zip" : String) = "zip") :=
  c6_download_writes_file { dirs := [], files := [] } "123" "dl" "zip"
    (fun _ => "payload".toList) (by decide) (Or.inr (Or.inr (Or.inr rfl)))
    (Or.inr rfl)

/-- Claim C8: no embedded operation reads or writes the listeners map: it is
empty after construction, every state-mutating operation preserves it, and
the token-store operations are insensitive to its contents; no operation
produces a sessionChange emission. -/
theorem c8_listeners_never_touched (cred : GCCredentials) (c : GCState) (fs : FS)
    (dir : String) (o1 : IOauth1Token) (o2 : IOauth2Token)
    (u pw : Option String) (L : List (String × Nat)) :
    (initialState cred).listeners = [] ∧
    (loadTokenByFile c fs dir).1.listeners = c.listeners ∧
    (loadToken c o1 o2).listeners = c.listeners ∧
    (login c u pw o1 o2).listeners = c.listeners ∧
    exportToken { c with listeners := L } = exportToken c ∧
    exportTokenToFile { c with listeners := L } fs dir = exportTokenToFile c fs dir := by
  refine ⟨rfl, loadTokenByFile_listeners c fs dir, rfl, ?_, rfl, rfl⟩
  cases u <;> cases pw <;> rfl

/-- Claim C9: saving never fails because a token is absent: whenever the
directory can be ensured, exportTokenToFile succeeds; each token file is
written exactly when its token is present (an absent token leaves the prior
file content, if any), and with no session at all the file map is unchanged. -/
theorem c9_save_skips_absent_tokens (c : GCState) (fs : FS) (dir : String)
    (hdir : checkIsDirectory fs dir = true ∨ existsSync fs dir = false) :
    ∃ fsOut, exportTokenToFile c fs dir = Except.ok fsOut ∧
      (c.oauth1Token = none → c.oauth2Token = none → fsOut.files = fs.files) ∧
      lookupFile fsOut.files (pathJoin dir "oauth1_token.json") =
        (match c.oauth1Token with
         | some t => some (stringifyOauth1 t)
         | none => lookupFile fs.files (pathJoin dir "oauth1_token.json")) ∧
      lookupFile fsOut.files (pathJoin dir "oauth2_token.json") =
        (match c.oauth2Token with
         | some t => some (stringifyOauth2 t)
         | none => lookupFile fs.files (pathJoin dir "oauth2_token.json")) := by
  obtain ⟨fs1, hfs1, hmem, hfiles⟩ := ensureDir_ok fs dir hdir
  have hne := pathJoin_token_ne dir
  unfold exportTokenToFile
  rw [hfs1]
  cases h1 : c.oauth1Token with
  | none =>
    cases h2 : c.oauth2Token with
    | none => exact ⟨fs1, rfl, fun _ _ => hfiles, by simp [hfiles], by simp [hfiles]⟩
    | some t2 =>
      refine ⟨_, rfl, ?_, ?_, ?_⟩
      · intro _ hx
        simp at hx
      · simp [writeToFile, lookupFile, Ne.symm hne, hfiles]
      · simp [writeToFile, lookupFile]
  | some t1 =>
    cases h2 : c.oauth2Token with
    | none =>
      refine ⟨_, rfl, ?_, ?_, ?_⟩
      · intro hx _
        simp at hx
      · simp [writeToFile, lookupFile]
      · simp [writeToFile, lookupFile, hne, hfiles]
    | some t2 =>
      refine ⟨_, rfl, ?_, ?_, ?_⟩
      · intro hx _
        simp at hx
      · simp [writeToFile, lookupFile, Ne.symm hne]
      · simp [writeToFile, lookupFile]

/-- Witness for C9: saving with no session into a fresh directory succeeds
and writes no token files. -/
theorem c9_save_skips_absent_tokens_witness :
    ∃ fsOut, exportTokenToFile
        { credentials := { username := "u", password := "p" },
          oauth1Token := none, oauth2Token := none, listeners := [] }
        { dirs := [], files := [] } "e" = Except.ok fsOut ∧
      ((none : Option IOauth1Token) = none → (none : Option IOauth2Token) = none →
        fsOut.files = ({ dirs := [], files := [] } : FS).files) ∧
      lookupFile fsOut.files (pathJoin "e" "oauth1_token.json") =
        lookupFile ({ dirs := [], files := [] } : FS).files (pathJoin "e" "oauth1_token.json") ∧
      lookupFile fsOut.files (pathJoin "e" "oauth2_token.json") =
        lookupFile ({ dirs := [], files := [] } : FS).files (pathJoin "e" "oauth2_token.json") :=
  c9_save_skips_absent_tokens
    { credentials := { username := "u", password := "p" },
      oauth1Token := none, oauth2Token := none, listeners := [] }
    { dirs := [], files := [] } "e" (Or.inr rfl)

/-- Claim C10: an invalid download type with a non-empty activityId still
creates the absent destination directory, then fails with the invalid-type
error having written no file and issued no request. -/
theorem c10_invalid_type_creates_dir (fs : FS) (aid dir ty : String)
    (fetch : HttpRequest → List Char)
    (ha : ¬ aid = "")
    (ht : ty ≠ "tcx" ∧ ty ≠ "gpx" ∧ ty ≠ "kml" ∧ ty ≠ "zip")
    (habs : existsSync fs dir = false) :
    downloadOriginalActivityData fs aid dir ty fetch =
      ({ dirs := dir :: fs.dirs, files := fs.files }, [],
        Except.error ("downloadOriginalActivityData - Invalid type: " ++ ty)) := by
  obtain ⟨ht1, ht2, ht3, ht4⟩ := ht
  have hcd : checkIsDirectory fs dir = false := by
    unfold checkIsDirectory
    rw [habs]
    rfl
  unfold downloadOriginalActivityData
  rw [if_neg ha, if_neg (by simp [hcd])]
  unfold createDirectory
  rw [if_neg (by simp [habs])]
  simp [ht1, ht2, ht3, ht4]

/-- Witness for C10 at a concrete invalid type xyz and fresh directory. -/
theorem c10_invalid_type_creates_dir_witness :
    downloadOriginalActivityData { dirs := [], files := [] } "123" "dl" "xyz"
        (fun _ => []) =
      ({ dirs := "dl" :: ([] : List String), files := [] }, [],
        Except.error ("downloadOriginalActivityData - Invalid type: " ++ "xyz")) :=
  c10_invalid_type_creates_dir { dirs := [], files := [] } "123" "dl" "xyz"
    (fun _ => []) (by decide) (by decide) rfl

end GarminSpec
